import Mathlib

/-!
Shallow embedding of the GUI test-automation harness of this repository:
the `VSCodeHelper` class in `src/test/e2e-python/helpers/vscode_helper.py`
and the executable lookup `find_vscode_executable` in
`src/test/e2e-python/archived-pywinauto/helpers/path_converter.py`.

The harness drives an external editor process, so every call into the
outside world (process spawn, liveness poll, window attachment, screen
capture, `taskkill`) is modelled by an explicit environment record whose
fields give the outcome of each external call; exceptions raised by the
Python runtime are modelled with `Except` (or with an explicit raised-flag
where the source catches them), and observable side effects (prints,
directory creation, spawns, sleeps, kills) are collected in a trace of
`Eff` values.  `time.sleep` durations are tracked in whole seconds.
Python `str.lower` is modelled with `Char.toLower` on the character list.
-/

namespace VSC

/-- Python `s.replace('/', chr 92)` as used throughout the helper to force
Windows-style paths: every forward slash becomes a backslash. -/
def toBackslashes (s : String) : String :=
  String.mk (s.data.map (fun c => if c = '/' then '\\' else c))

/-- Windows `os.path.join a b` for the joins performed by the helper
(a directory joined with a relative name). -/
def winJoin (a b : String) : String := a ++ "\\" ++ b

/-- State of a `VSCodeHelper` instance: the fields set in `__init__` and
mutated by `launch` / `connect_to_window` (`app` is subsumed by `window`;
`process` holds the spawned pid when present). -/
structure VState where
  vscode_path : String
  extension_path : String
  window : Bool
  process : Option Nat
  deriving DecidableEq

/-- Environment for `find_vscode_executable`: `whereOut` is the first line
of `where code` output when that command succeeds (and `none` when it fails
or raises), `pathExists` is `os.path.exists`, `expandvars` is
`os.path.expandvars`. -/
structure PathEnv where
  whereOut : Option String
  pathExists : String → Bool
  expandvars : String → String

/-- The hard-coded candidate list of `find_vscode_executable`
(`path_converter.py` lines 43-49); the last two entries already have
`os.path.expandvars` applied when the list is built. -/
def vscodeCandidates (env : PathEnv) : List String :=
  ["C:\\Users\\ramerman\\AppData\\Local\\Programs\\Microsoft VS Code\\Code.exe",
   "C:\\Program Files\\Microsoft VS Code\\Code.exe",
   "C:\\Program Files (x86)\\Microsoft VS Code\\Code.exe",
   env.expandvars "%LOCALAPPDATA%\\Programs\\Microsoft VS Code\\Code.exe",
   env.expandvars "%LOCALAPPDATA%\\Programs\\Microsoft VS Code Insiders\\Code - Insiders.exe"]

/-- The candidate-scanning loop of `find_vscode_executable` (lines 62-68):
each candidate is expanded again, the first existing one is returned, and
a `FileNotFoundError` (modelled as `Except.error ()`) is raised when none
exists. -/
def searchCandidates (env : PathEnv) : Except Unit String :=
  match (vscodeCandidates env).find? (fun c => env.pathExists (env.expandvars c)) with
  | some c => .ok (env.expandvars c)
  | none => .error ()

/-- The function `find_vscode_executable` (`path_converter.py` lines 41-68):
first the `where code` lookup (used only when the command succeeds and the
returned path exists), then the hard-coded candidates, else raise. -/
def find_vscode_executable (env : PathEnv) : Except Unit String :=
  match env.whereOut with
  | some p => if env.pathExists p then .ok p else searchCandidates env
  | none => searchCandidates env

/-- The constructor `VSCodeHelper.__init__` (lines 18-33): resolves the
extension path (argument or project root), converts it to backslashes,
then calls `find_vscode_executable`, whose `FileNotFoundError` propagates
out of the constructor. -/
def vsc_init (extension_path : Option String) (projectRoot : String)
    (env : PathEnv) : Except Unit VState :=
  let ep := toBackslashes (extension_path.getD projectRoot)
  match find_vscode_executable env with
  | .ok p => .ok { vscode_path := p, extension_path := ep, window := false, process := none }
  | .error e => .error e

/-- Observable side effects of the helper, collected in traces: printed
diagnostics, directory creation, sleeps (seconds), the `subprocess.Popen`
call with its full argument list, a successful spawn, `communicate`, the
window-attachment attempt, `terminate` / `wait` / `kill` on the process,
closing the attached window, and the final `taskkill` invocation. -/
inductive Eff where
  | print (s : String)
  | mkdir (p : String)
  | sleepE (n : Nat)
  | popenCall (cmd : List String)
  | spawned (pid : Nat)
  | communicate
  | connectAttempt
  | terminate
  | waitProc (t : Nat)
  | killProc
  | windowClose
  | taskkill
  deriving DecidableEq

/-- True exactly on the successful-spawn effect. -/
def Eff.isSpawn : Eff → Bool
  | .spawned _ => true
  | _ => false

/-- Environment for `launch`: whether the default test workspace already
exists on disk, whether `os.makedirs` succeeds (it runs OUTSIDE the
`try`, so its failure propagates), the outcome of `subprocess.Popen`
(pid, or the raised exception's message), the outcome of each successive
`poll()` call in call order (`none` = still alive, `some c` = exited with
code `c`), whether `connect_to_window` succeeds (it catches all its own
exceptions and returns a bool), and the captured stdout/stderr text. -/
structure LaunchEnv where
  wsExists : Bool
  mkdirOk : Bool
  popen : Except String Nat
  polls : Nat → Option Int
  connectOk : Bool
  stdoutS : String
  stderrS : String

/-- The flag block appended to the command line (`vscode_helper.py`
lines 73-83). -/
def launchFlags (ep : String) : List String :=
  ["--disable-gpu", "--disable-updates", "--skip-welcome",
   "--skip-release-notes", "--disable-telemetry", "--disable-workspace-trust",
   "--user-data-dir", winJoin ep ".vscode-test-profile",
   "--extensions-dir", winJoin ep ".vscode-test-extensions"]

/-- The default test-workspace path used when no workspace is supplied
(lines 60-61): joined under the extension path, then backslash-converted. -/
def testWorkspace (ep : String) : String :=
  toBackslashes (winJoin ep ".test-workspace")

/-- The full argument list built by `launch` (lines 49-83): executable,
extension-development flag, workspace (supplied one backslash-converted,
else the default test workspace), optional `--new-window`, then the fixed
flags. -/
def launchCmd (st : VState) (workspace_path : Option String)
    (new_window : Bool) : List String :=
  [st.vscode_path, "--extensionDevelopmentPath", st.extension_path]
  ++ (match workspace_path with
      | some wp => [toBackslashes wp]
      | none => [testWorkspace st.extension_path])
  ++ (if new_window then ["--new-window"] else [])
  ++ launchFlags st.extension_path

/-- The method `launch` (lines 35-123).  Control flow from the source:
workspace handling and `os.makedirs` happen before the `try`, so a
`makedirs` failure propagates (`Except.error`); inside the `try`, a
`Popen` failure is caught and yields `False`; after sleeping `wait_time`
seconds a first `poll()` detects early exit (captured output and the exit
code are printed, result `False`); otherwise `connect_to_window` is
attempted — on success the window is recorded and the result is `True`,
on failure a warning is printed and the result is a SECOND `poll()`'s
liveness (`self.process.poll() is None`, line 115). -/
def launch (st : VState) (workspace_path : Option String) (new_window : Bool)
    (wait_time : Nat) (env : LaunchEnv) :
    Except Unit (Bool × VState × List Eff) :=
  let preEff : List Eff :=
    match workspace_path with
    | some _ => []
    | none =>
        if env.wsExists then []
        else [Eff.mkdir (testWorkspace st.extension_path)]
  if workspace_path.isNone && !env.wsExists && !env.mkdirOk then
    .error ()
  else
    let cmd := launchCmd st workspace_path new_window
    match env.popen with
    | .error msg =>
        .ok (false, st,
          preEff ++ [Eff.popenCall cmd,
            Eff.print ("Failed to launch VS Code: " ++ msg)])
    | .ok pid =>
        let st1 := { st with process := some pid }
        let tr0 := preEff ++ [Eff.popenCall cmd, Eff.spawned pid,
          Eff.print ("VS Code process started with PID: " ++ toString pid),
          Eff.sleepE wait_time]
        match env.polls 0 with
        | some code =>
            .ok (false, st1, tr0 ++ [Eff.communicate,
              Eff.print ("VS Code exited early with code: " ++ toString code)]
              ++ (if env.stdoutS = "" then []
                  else [Eff.print ("Stdout: " ++ env.stdoutS)])
              ++ (if env.stderrS = "" then []
                  else [Eff.print ("Stderr: " ++ env.stderrS)]))
        | none =>
            if env.connectOk then
              .ok (true, { st1 with window := true },
                tr0 ++ [Eff.connectAttempt])
            else
              .ok ((env.polls 1).isNone, st1,
                tr0 ++ [Eff.connectAttempt,
                  Eff.print "Warning: Could not connect to VS Code window, but process is running"])

/-- Boolean result of `launch` (`some b` when it returns normally, `none`
when an exception escapes). -/
def launchBool (st : VState) (workspace_path : Option String)
    (new_window : Bool) (wait_time : Nat) (env : LaunchEnv) : Option Bool :=
  match launch st workspace_path new_window wait_time env with
  | .ok (b, _, _) => some b
  | .error _ => none

/-- Effect trace of a `launch` call that returns normally. -/
def launchTrace (st : VState) (workspace_path : Option String)
    (new_window : Bool) (wait_time : Nat) (env : LaunchEnv) : List Eff :=
  match launch st workspace_path new_window wait_time env with
  | .ok (_, _, tr) => tr
  | .error _ => []

/-- A concrete freshly-constructed helper state. -/
def cSt : VState :=
  { vscode_path := "C:\\Code.exe", extension_path := "C:\\ext",
    window := false, process := none }

/-- Environment where the spawn succeeds, the process is alive at the end
of the wait period (first poll), window attachment fails, and the process
has exited by the time of the post-attachment re-poll. -/
def c2Env : LaunchEnv :=
  { wsExists := true, mkdirOk := true, popen := .ok 100,
    polls := fun i => if i = 0 then none else some 1,
    connectOk := false, stdoutS := "", stderrS := "" }

/-- Environment where `subprocess.Popen` raises (nonexistent binary). -/
def c4Env : LaunchEnv :=
  { wsExists := true, mkdirOk := true, popen := .error "FileNotFoundError",
    polls := fun _ => none, connectOk := false, stdoutS := "", stderrS := "" }

/-- Environment where the spawn succeeds, every poll reports the process
alive, and window attachment succeeds. -/
def aliveEnvL : LaunchEnv :=
  { wsExists := true, mkdirOk := true, popen := .ok 7,
    polls := fun _ => none, connectOk := true, stdoutS := "", stderrS := "" }

/-- Environment where the process exits with code 1 before the end of the
wait period. -/
def exitEnv : LaunchEnv :=
  { wsExists := true, mkdirOk := true, popen := .ok 7,
    polls := fun _ => some 1, connectOk := false, stdoutS := "", stderrS := "" }

/-- Environment where the default test workspace does not yet exist and
its creation succeeds. -/
def c10Env : LaunchEnv :=
  { wsExists := false, mkdirOk := true, popen := .ok 3,
    polls := fun _ => none, connectOk := true, stdoutS := "", stderrS := "" }

/-- Environment for `wait_for_extension`: whether `self.process` is set
(truthy), and the result of each successive `poll()` call in call order
(`true` = `poll() is None`, the process is alive). -/
structure WaitEnv where
  hasProcess : Bool
  alive : Nat → Bool

/-- The polling loop of `wait_for_extension` (lines 184-195).  `elapsed`
models `time.time() - start_time` in whole seconds (all elapsed time
comes from the harness's own sleeps); `idx` counts `poll()` calls.  While
`elapsed < timeout`: a live process with `elapsed > 10` returns `True`, a
live process otherwise sleeps 2 seconds and loops, and a missing or
terminated process returns `False`; when the loop condition fails the
method returns `True` (line 198).  The second component of the result is
the total seconds slept when the call returns. -/
def waitLoop (env : WaitEnv) (timeout : Nat) (idx elapsed : Nat) :
    Bool × Nat :=
  if h : elapsed < timeout then
    if env.hasProcess && env.alive idx then
      if 10 < elapsed then (true, elapsed)
      else waitLoop env timeout (idx + 1) (elapsed + 2)
    else (false, elapsed)
  else (true, elapsed)
termination_by timeout - elapsed
decreasing_by omega

/-- The method `wait_for_extension` (lines 158-198): an initial 5-second
stabilization sleep, then an early-exit check (`False` when a process
handle exists and `poll()` reports it exited), then the polling loop.
Returns the boolean result paired with the total seconds slept. -/
def wait_for_extension (env : WaitEnv) (timeout : Nat) : Bool × Nat :=
  if env.hasProcess && !env.alive 0 then (false, 5)
  else waitLoop env timeout 1 5

/-- Environment with no process handle (helper never launched). -/
def noProcEnv : WaitEnv := { hasProcess := false, alive := fun _ => true }

/-- Environment with a process handle that stays alive at every poll. -/
def aliveEnvW : WaitEnv := { hasProcess := true, alive := fun _ => true }

/-- Environment for `close`: outcome of each external call.
`terminateOk` — `process.terminate()` does not raise; `waitGrace` —
`process.wait(timeout=3)` returns before the timeout (otherwise it raises
`TimeoutExpired`, caught by the inner handler); `killOk` —
`process.kill()` does not raise; `wait2Grace` — the `process.wait(2)`
after the kill returns in time (otherwise its `TimeoutExpired` escapes to
the outer `except Exception` handler); `windowCloseOk` —
`window.close()` does not raise; `taskkillRuns` — the
`subprocess.run(taskkill)` call itself does not raise (its failure is
swallowed by the bare `except: pass`); `taskkillCode` — the `taskkill`
return code. -/
structure CloseEnv where
  terminateOk : Bool
  waitGrace : Bool
  killOk : Bool
  wait2Grace : Bool
  windowCloseOk : Bool
  taskkillRuns : Bool
  taskkillCode : Int

/-- The running-process table of the host: the executable image names of
the processes currently running. -/
abbrev World : Type := List String

/-- The `try` block of `close` (lines 320-334): graceful terminate, wait,
escalate to kill on `TimeoutExpired`, else close the window if one is
attached.  Returns the effect trace together with a flag telling whether
an exception escapes the block (to be caught by the outer
`except Exception` handler). -/
def closeTry (st : VState) (env : CloseEnv) : List Eff × Bool :=
  match st.process with
  | some pid =>
      if !env.terminateOk then
        ([Eff.print ("Terminating process " ++ toString pid),
          Eff.terminate], true)
      else if env.waitGrace then
        ([Eff.print ("Terminating process " ++ toString pid), Eff.terminate,
          Eff.waitProc 3, Eff.print "VS Code terminated gracefully"], false)
      else
        let base := [Eff.print ("Terminating process " ++ toString pid),
          Eff.terminate, Eff.waitProc 3,
          Eff.print "VS Code didn't terminate, killing it"]
        if !env.killOk then
          (base ++ [Eff.killProc], true)
        else if env.wait2Grace then
          (base ++ [Eff.killProc, Eff.waitProc 2], false)
        else
          (base ++ [Eff.killProc, Eff.waitProc 2], true)
  | none =>
      if st.window then
        if env.windowCloseOk then ([Eff.windowClose, Eff.sleepE 2], false)
        else ([Eff.windowClose], true)
      else ([], false)

/-- The method `close` (lines 317-347).  Any exception of the `try` block
is caught by `except Exception` (which prints); the `finally` block then
unconditionally attempts `taskkill /F /IM Code.exe /T` inside a bare
`try`/`except: pass`, so nothing escapes `close` and the result is always
`Except.ok`.  Modelled `taskkill` semantics: when the `subprocess.run`
call runs, every process whose image name is `Code.exe` is removed from
the world. -/
def close (st : VState) (env : CloseEnv) (w : World) :
    Except Unit (World × List Eff) :=
  let body := closeTry st env
  let tr := [Eff.print "Closing VS Code..."] ++ body.1
    ++ (if body.2 then [Eff.print "Error closing VS Code"] else [])
    ++ [Eff.print "Ensuring all VS Code processes are closed..."]
  if env.taskkillRuns then
    .ok (List.filter (fun n => n ≠ "Code.exe") w,
      tr ++ [Eff.taskkill]
        ++ (if env.taskkillCode = 0
            then [Eff.print "Killed remaining VS Code processes"] else [])
        ++ [Eff.sleepE 1])
  else
    .ok (w, tr ++ [Eff.taskkill])

/-- A concrete close environment: everything succeeds gracefully. -/
def cCloseEnv : CloseEnv :=
  { terminateOk := true, waitGrace := true, killOk := true,
    wait2Grace := true, windowCloseOk := true, taskkillRuns := true,
    taskkillCode := 0 }

/-- Environment for `take_screenshot`: the project root returned by
`get_project_root`, whether `os.makedirs(..., exist_ok=True)` succeeds
(it runs OUTSIDE the `try`, so its failure would propagate), whether
`window.capture_as_image().save(filepath)` succeeds, and whether the
fallback `pyautogui.screenshot(filepath)` succeeds. -/
structure ShotEnv where
  projectRoot : String
  makedirsOk : Bool
  windowCaptureOk : Bool
  screenOk : Bool

/-- The screenshots directory fixed by `take_screenshot` (line 297). -/
def screenshotDir (env : ShotEnv) : String :=
  winJoin (winJoin (winJoin env.projectRoot "test") "e2e-python") "screenshots"

/-- The method `take_screenshot` (lines 288-315): create the screenshots
directory (outside the `try`); then capture the attached window's image
if a window is attached, else a full-screen capture; return the saved
path, or the empty string when the capture raises (caught and logged). -/
def take_screenshot (window : Bool) (filename : String) (env : ShotEnv) :
    Except Unit (String × List Eff) :=
  if !env.makedirsOk then .error ()
  else
    let fp := winJoin (screenshotDir env) filename
    if window then
      if env.windowCaptureOk then
        .ok (fp, [Eff.mkdir (screenshotDir env),
          Eff.print ("Screenshot saved: " ++ fp)])
      else
        .ok ("", [Eff.mkdir (screenshotDir env),
          Eff.print "Failed to take screenshot"])
    else
      if env.screenOk then
        .ok (fp, [Eff.mkdir (screenshotDir env),
          Eff.print ("Screenshot saved: " ++ fp)])
      else
        .ok ("", [Eff.mkdir (screenshotDir env),
          Eff.print "Failed to take screenshot"])

/-- A concrete screenshot environment where everything succeeds. -/
def cShotEnv : ShotEnv :=
  { projectRoot := "C:\\proj", makedirsOk := true,
    windowCaptureOk := true, screenOk := true }

/-- Python `s.lower()` modelled character-wise. -/
def lowerChars (s : String) : List Char := s.data.map Char.toLower

/-- The method `find_text` (lines 243-267).  The attached window is
modelled as `none` when absent, and otherwise carries the outcome of
`window.descendants()`: either a raised exception (caught by the outer
handler, result `false`) or the list of elements, each element being the
outcome of its `window_text()` call (a raised read is swallowed by the
inner `except: continue` and treated as a non-match).  A readable text
matches when the lower-cased search text is a substring of its
lower-cased value. -/
def find_text (window : Option (Except Unit (List (Except Unit String))))
    (text : String) : Bool :=
  match window with
  | none => false
  | some (.error _) => false
  | some (.ok elems) =>
      elems.any (fun e =>
        match e with
        | .ok s => decide (lowerChars text <:+: lowerChars s)
        | .error _ => false)

/-- The world/trace pair produced by a `close` call that returns
normally. -/
def closeResult (st : VState) (env : CloseEnv) (w : World) :
    World × List Eff :=
  match close st env w with
  | .ok p => p
  | .error _ => (w, [])

/-- A concrete attached window: one element whose text read raises, one
whose text reads `Hello World`. -/
def demoWindow : Option (Except Unit (List (Except Unit String))) :=
  some (.ok [Except.error (), Except.ok "Hello World"])

end VSC

namespace VSC

/-- Claim C9: constructing a `VSCodeHelper` raises a `FileNotFoundError`
when no VS Code executable can be located — neither via the `where code`
PATH lookup nor at any of the hard-coded candidate locations — so the
not-found failure occurs at construction time, before `launch()` can ever
be called on the instance. -/
theorem init_raises_when_not_found (extension_path : Option String)
    (projectRoot : String) (env : PathEnv)
    (hw : ∀ p, env.whereOut = some p → env.pathExists p = false)
    (hc : ∀ c ∈ vscodeCandidates env, env.pathExists (env.expandvars c) = false) :
    vsc_init extension_path projectRoot env = .error () := by
  have hfind : (vscodeCandidates env).find?
      (fun c => env.pathExists (env.expandvars c)) = none := by
    apply List.find?_eq_none.mpr
    intro c hcmem
    simp [hc c hcmem]
  unfold vsc_init find_vscode_executable searchCandidates
  cases h : env.whereOut with
  | none => simp [hfind]
  | some p => simp [hfind, hw p h]

/-- Concrete environment in which nothing exists on disk and `where code`
fails. -/
def noFindEnv : PathEnv :=
  { whereOut := none, pathExists := fun _ => false, expandvars := id }

/-- Witness for C9: at the concrete environment `noFindEnv` the
constructor raises. -/
theorem init_raises_when_not_found_witness :
    vsc_init none "C:\\proj" noFindEnv = .error () :=
  init_raises_when_not_found none "C:\\proj" noFindEnv
    (fun p hp => by simp [noFindEnv] at hp)
    (fun c _ => rfl)

/-- Helper: under any of the side conditions that make the pre-`try`
`os.makedirs` irrelevant or successful, `launch` does not raise. -/
theorem makedirsGuard_false {ws : Option String} {env : LaunchEnv}
    (hpre : ws.isSome = true ∨ env.wsExists = true ∨ env.mkdirOk = true) :
    (ws.isNone && !env.wsExists && !env.mkdirOk) = false := by
  rcases hpre with h | h | h
  · cases ws with
    | none => simp at h
    | some _ => simp
  · simp [h]
  · simp [h]

/-- Counterexample to claim C2 as stated: in `c2Env` the process is alive
when the fixed wait period ends (first poll is `none`), window attachment
fails, and the post-attachment re-poll at line 115 finds the process
exited — so `launch` returns `false` even though the process was still
alive at the end of the wait period. -/
theorem launch_c2_counterexample :
    c2Env.polls 0 = none ∧ c2Env.connectOk = false ∧
    launchBool cSt (some "D:/ws") true 10 c2Env = some false := by
  refine ⟨rfl, rfl, ?_⟩
  rfl

/-- Claim C2 amended: when the spawn succeeded and the process is alive at
the end of the wait period, `launch` returns `true` if window attachment
succeeds, and on attachment failure the result is exactly the liveness of
the post-attachment re-poll at line 115 — `true` iff that second poll
still reports the process alive, `false` iff it reports an exit code; in
particular attachment failure with the process still alive never yields
`false`. -/
theorem launch_alive_c2_amended (st : VState) (ws : Option String)
    (nw : Bool) (wt : Nat) (env : LaunchEnv) (pid : Nat)
    (hpre : ws.isSome = true ∨ env.wsExists = true ∨ env.mkdirOk = true)
    (hp : env.popen = .ok pid) (h0 : env.polls 0 = none) :
    (env.connectOk = true → launchBool st ws nw wt env = some true) ∧
    (env.connectOk = false →
      launchBool st ws nw wt env = some (env.polls 1).isNone) := by
  have hg := makedirsGuard_false hpre
  constructor
  · intro hc
    simp [launchBool, launch, hg, hp, h0, hc]
  · intro hc
    simp [launchBool, launch, hg, hp, h0, hc]

/-- Witness for the amended C2: a concrete alive-and-attached environment
returns `true`, and a concrete environment whose attachment fails and
whose re-poll reports an exit returns `false` via the only-if
direction. -/
theorem launch_alive_c2_amended_witness :
    launchBool cSt none true 10 aliveEnvL = some true ∧
    launchBool cSt (some "D:/ws") true 10 c2Env = some false := by
  constructor
  · exact (launch_alive_c2_amended cSt none true 10 aliveEnvL 7
      (Or.inr (Or.inl rfl)) rfl rfl).1 rfl
  · have h := (launch_alive_c2_amended cSt (some "D:/ws") true 10 c2Env 100
      (Or.inl rfl) rfl rfl).2 rfl
    exact h

/-- Claim C3: when the spawned process has already exited (with code
`code`) before the end of the fixed wait period, `launch` returns `false`
and its diagnostic output includes the actual exit code. -/
theorem launch_exit_c3 (st : VState) (ws : Option String) (nw : Bool)
    (wt : Nat) (env : LaunchEnv) (pid : Nat) (code : Int)
    (hpre : ws.isSome = true ∨ env.wsExists = true ∨ env.mkdirOk = true)
    (hp : env.popen = .ok pid) (h0 : env.polls 0 = some code) :
    launchBool st ws nw wt env = some false ∧
    Eff.print ("VS Code exited early with code: " ++ toString code) ∈
      launchTrace st ws nw wt env := by
  have hg := makedirsGuard_false hpre
  constructor
  · simp [launchBool, launch, hg, hp, h0]
  · simp [launchTrace, launch, hg, hp, h0]

/-- Witness for C3 at a concrete environment whose process exits with
code 1. -/
theorem launch_exit_c3_witness :
    launchBool cSt none true 10 exitEnv = some false ∧
    Eff.print ("VS Code exited early with code: " ++ toString (1 : Int)) ∈
      launchTrace cSt none true 10 exitEnv :=
  launch_exit_c3 cSt none true 10 exitEnv 7 1 (Or.inr (Or.inl rfl)) rfl rfl

/-- Counterexample to claim C4 as stated: with a nonexistent binary the
`Popen` call raises `FileNotFoundError`, but `launch` does not terminate
by raising — the exception is caught by the surrounding handler and
`launch` returns `false`; no process is spawned. -/
theorem launch_c4_counterexample :
    launchBool cSt (some "D:/ws") true 10 c4Env = some false ∧
    (launchTrace cSt (some "D:/ws") true 10 c4Env).all
      (fun e => ! e.isSpawn) = true := by
  constructor <;> rfl

/-- Claim C4 amended: the not-found condition is raised at construction
time (`find_vscode_executable`, see C9); if the binary path is
nonexistent at `launch` time, the spawn failure is caught internally, so
`launch` returns `false` without raising and no process is spawned. -/
theorem launch_c4_amended (st : VState) (ws : Option String) (nw : Bool)
    (wt : Nat) (env : LaunchEnv) (msg : String)
    (hpre : ws.isSome = true ∨ env.wsExists = true ∨ env.mkdirOk = true)
    (hp : env.popen = .error msg) :
    launchBool st ws nw wt env = some false ∧
    (launchTrace st ws nw wt env).all (fun e => ! e.isSpawn) = true := by
  have hg := makedirsGuard_false hpre
  constructor
  · simp [launchBool, launch, hg, hp]
  · rcases ws with _ | wp
    · cases hwse : env.wsExists with
      | false =>
          have hmk : env.mkdirOk = true := by
            rcases hpre with h | h | h
            · simp at h
            · rw [h] at hwse; exact Bool.noConfusion hwse
            · exact h
          simp [launchTrace, launch, hp, Eff.isSpawn, hwse, hmk]
      | true => simp [launchTrace, launch, hp, Eff.isSpawn, hwse]
    · simp [launchTrace, launch, hg, hp, Eff.isSpawn]

/-- Witness for the amended C4 at a concrete raising-spawn environment. -/
theorem launch_c4_amended_witness :
    launchBool cSt (some "D:/other") true 10 c4Env = some false ∧
    (launchTrace cSt (some "D:/other") true 10 c4Env).all
      (fun e => ! e.isSpawn) = true :=
  launch_c4_amended cSt (some "D:/other") true 10 c4Env "FileNotFoundError"
    (Or.inl rfl) rfl

/-- Claim C10: when no workspace argument is supplied, `launch` creates
the default `.test-workspace` directory under the extension path if it
is absent, and always passes that directory on the spawned process's
command line. -/
theorem launch_default_workspace_c10 (st : VState) (nw : Bool) (wt : Nat)
    (env : LaunchEnv)
    (hpre : env.wsExists = true ∨ env.mkdirOk = true) :
    (env.wsExists = false →
      Eff.mkdir (testWorkspace st.extension_path) ∈
        launchTrace st none nw wt env) ∧
    Eff.popenCall (launchCmd st none nw) ∈ launchTrace st none nw wt env ∧
    testWorkspace st.extension_path ∈ launchCmd st none nw := by
  refine ⟨?_, ?_, ?_⟩
  · intro hws
    have hmk : env.mkdirOk = true := by
      rcases hpre with h | h
      · rw [h] at hws; exact Bool.noConfusion hws
      · exact h
    cases hp : env.popen <;> cases h0 : env.polls 0 <;>
      cases hc : env.connectOk <;>
        simp [launchTrace, launch, hp, h0, hc, hws, hmk]
  · cases hwse : env.wsExists with
    | false =>
        have hmk : env.mkdirOk = true := by
          rcases hpre with h | h
          · rw [h] at hwse; exact Bool.noConfusion hwse
          · exact h
        cases hp : env.popen <;> cases h0 : env.polls 0 <;>
          cases hc : env.connectOk <;>
            simp [launchTrace, launch, hp, h0, hc, hwse, hmk]
    | true =>
        cases hp : env.popen <;> cases h0 : env.polls 0 <;>
          cases hc : env.connectOk <;>
            simp [launchTrace, launch, hp, h0, hc, hwse]
  · simp [launchCmd]

/-- Witness for C10 at a concrete environment without a pre-existing test
workspace. -/
theorem launch_default_workspace_c10_witness :
    Eff.mkdir (testWorkspace cSt.extension_path) ∈
      launchTrace cSt none true 10 c10Env ∧
    testWorkspace cSt.extension_path ∈ launchCmd cSt none true := by
  obtain ⟨h1, h2, h3⟩ :=
    launch_default_workspace_c10 cSt true 10 c10Env (Or.inr rfl)
  exact ⟨h1 rfl, h3⟩

/-- Helper: when a process handle exists and every liveness poll reports
the process alive, the polling loop of `wait_for_extension` always
returns `true`. -/
theorem waitLoop_alive (env : WaitEnv) (hp : env.hasProcess = true)
    (ha : ∀ i, env.alive i = true) (timeout : Nat) :
    ∀ n idx elapsed, timeout - elapsed ≤ n →
      (waitLoop env timeout idx elapsed).1 = true := by
  intro n
  induction n with
  | zero =>
      intro idx elapsed he
      have hto : ¬ elapsed < timeout := by omega
      unfold waitLoop
      simp [hto]
  | succ n ih =>
      intro idx elapsed he
      unfold waitLoop
      by_cases hlt : elapsed < timeout
      · rw [dif_pos hlt, hp, ha idx]
        by_cases h10 : 10 < elapsed
        · simp [h10]
        · simp only [Bool.and_self, if_true, if_neg h10]
          exact ih (idx + 1) (elapsed + 2) (by omega)
      · simp [hlt]

/-- Counterexample to claim C5 as stated: on a helper that was never
launched (`self.process is None`) and a timeout of 6 seconds,
`wait_for_extension` returns `false` although no underlying process has
terminated — there is no underlying process at all. -/
theorem wait_c5_counterexample :
    noProcEnv.hasProcess = false ∧
    (wait_for_extension noProcEnv 6).1 = false := by
  refine ⟨rfl, ?_⟩
  simp [wait_for_extension, waitLoop, noProcEnv]

/-- Claim C5 amended: `wait_for_extension` returns `false` only if the
process handle is absent or some liveness poll observed the process
terminated; in particular, whenever a process handle exists and the
process remains alive for the whole call (including the loop-timeout
path), the call returns `true`. -/
theorem wait_false_only_if_dead_c5 (env : WaitEnv) (timeout : Nat) :
    ((wait_for_extension env timeout).1 = false →
      env.hasProcess = false ∨ ∃ i, env.alive i = false) ∧
    (env.hasProcess = true → (∀ i, env.alive i = true) →
      (wait_for_extension env timeout).1 = true) := by
  have pos : env.hasProcess = true → (∀ i, env.alive i = true) →
      (wait_for_extension env timeout).1 = true := by
    intro hp ha
    unfold wait_for_extension
    rw [hp, ha 0]
    simp only [Bool.not_true, Bool.and_false, Bool.false_eq_true, if_false]
    exact waitLoop_alive env hp ha timeout (timeout - 5) 1 5 le_rfl
  refine ⟨?_, pos⟩
  intro hf
  by_contra hcon
  push_neg at hcon
  obtain ⟨h1, h2⟩ := hcon
  have hp : env.hasProcess = true := by
    cases h : env.hasProcess
    · exact absurd h h1
    · rfl
  have ha : ∀ i, env.alive i = true := by
    intro i
    cases h : env.alive i
    · exact absurd h (h2 i)
    · rfl
  rw [pos hp ha] at hf
  exact Bool.noConfusion hf

/-- Witness for the amended C5 at a concrete always-alive environment. -/
theorem wait_false_only_if_dead_c5_witness :
    (wait_for_extension aliveEnvW 30).1 = true :=
  (wait_false_only_if_dead_c5 aliveEnvW 30).2 rfl (fun _ => rfl)

/-- Claim C6: with timeout 10 on a process that stays alive throughout,
`wait_for_extension` returns `true` and the total slept duration is
within 10-12 seconds (here exactly 11: the initial 5-second stabilization
sleep plus three 2-second poll sleeps, after which the elapsed time 11
exceeds the loop bound). -/
theorem wait_timing_c6 (env : WaitEnv) (hp : env.hasProcess = true)
    (ha : ∀ i, env.alive i = true) :
    (wait_for_extension env 10).1 = true ∧
    10 ≤ (wait_for_extension env 10).2 ∧
    (wait_for_extension env 10).2 ≤ 12 := by
  have heval : wait_for_extension env 10 = (true, 11) := by
    simp [wait_for_extension, waitLoop, hp, ha]
  rw [heval]
  exact ⟨rfl, by norm_num, by norm_num⟩

/-- Witness for C6 at a concrete always-alive environment. -/
theorem wait_timing_c6_witness :
    (wait_for_extension aliveEnvW 10).1 = true ∧
    10 ≤ (wait_for_extension aliveEnvW 10).2 ∧
    (wait_for_extension aliveEnvW 10).2 ≤ 12 :=
  wait_timing_c6 aliveEnvW rfl (fun _ => rfl)

/-- Claim C1: for every prior state (never launched, launched, launch
failed, window-only) and every outcome of the external calls, `close`
raises no exception (it always returns `Except.ok`), its trace always
contains the final global `taskkill` step (even when graceful termination
succeeded), and when that `taskkill` invocation runs, no process with the
target image name `Code.exe` remains in the world afterwards. -/
theorem close_cleanup_c1 (st : VState) (env : CloseEnv) (w : World) :
    close st env w = .ok (closeResult st env w) ∧
    Eff.taskkill ∈ (closeResult st env w).2 ∧
    (env.taskkillRuns = true → "Code.exe" ∉ (closeResult st env w).1) := by
  cases htk : env.taskkillRuns <;>
    simp [close, closeResult, htk, List.mem_filter]

/-- Witness for C1: graceful-everything environment on a world holding
two `Code.exe` instances and one unrelated process. -/
theorem close_cleanup_c1_witness :
    Eff.taskkill ∈
      (closeResult cSt cCloseEnv ["Code.exe", "explorer.exe", "Code.exe"]).2 ∧
    "Code.exe" ∉
      (closeResult cSt cCloseEnv ["Code.exe", "explorer.exe", "Code.exe"]).1 := by
  obtain ⟨h1, h2, h3⟩ :=
    close_cleanup_c1 cSt cCloseEnv ["Code.exe", "explorer.exe", "Code.exe"]
  exact ⟨h2, h3 rfl⟩

/-- Helper: a Windows path join is never the empty string. -/
theorem winJoin_ne_empty (a b : String) : winJoin a b ≠ "" := by
  intro h
  have hl := congrArg String.length h
  simp [winJoin, String.length_append] at hl
  exact absurd hl.1.2 (by decide)

/-- Claim C7: when the directory creation succeeds, `take_screenshot`
returns the non-empty file path whenever the capture-and-save step
succeeds (window capture when a window is attached, full-screen capture
otherwise), and returns the empty string without raising whenever the
capture fails. -/
theorem screenshot_c7 (window : Bool) (filename : String) (env : ShotEnv)
    (hmk : env.makedirsOk = true) :
    (window = true → env.windowCaptureOk = true →
      ∃ tr, take_screenshot window filename env =
          .ok (winJoin (screenshotDir env) filename, tr) ∧
        winJoin (screenshotDir env) filename ≠ "") ∧
    (window = true → env.windowCaptureOk = false →
      ∃ tr, take_screenshot window filename env = .ok ("", tr)) ∧
    (window = false → env.screenOk = false →
      ∃ tr, take_screenshot window filename env = .ok ("", tr)) := by
  refine ⟨?_, ?_, ?_⟩
  · intro hw hc
    refine ⟨[Eff.mkdir (screenshotDir env),
      Eff.print ("Screenshot saved: " ++ winJoin (screenshotDir env) filename)],
      ?_, winJoin_ne_empty _ _⟩
    simp [take_screenshot, hmk, hw, hc]
  · intro hw hc
    refine ⟨[Eff.mkdir (screenshotDir env),
      Eff.print "Failed to take screenshot"], ?_⟩
    simp [take_screenshot, hmk, hw, hc]
  · intro hw hc
    refine ⟨[Eff.mkdir (screenshotDir env),
      Eff.print "Failed to take screenshot"], ?_⟩
    simp [take_screenshot, hmk, hw, hc]

/-- Witness for C7: concrete successful window capture. -/
theorem screenshot_c7_witness :
    ∃ tr, take_screenshot true "shot.png" cShotEnv =
        .ok (winJoin (screenshotDir cShotEnv) "shot.png", tr) ∧
      winJoin (screenshotDir cShotEnv) "shot.png" ≠ "" :=
  (screenshot_c7 true "shot.png" cShotEnv rfl).1 rfl rfl

/-- Claim C8: `find_text` returns `false` (and cannot raise — every
internal failure is caught) when no window is attached, and on an
attached window whose descendants were listed it returns `true` iff some
element's readable text contains the search text as a case-insensitive
substring, element-read failures counting as non-matches. -/
theorem find_text_c8
    (window : Option (Except Unit (List (Except Unit String))))
    (text : String) :
    (window = none → find_text window text = false) ∧
    (∀ elems, window = some (.ok elems) →
      (find_text window text = true ↔
        ∃ s, Except.ok s ∈ elems ∧ lowerChars text <:+: lowerChars s)) := by
  constructor
  · intro h
    rw [h]
    rfl
  · intro elems h
    subst h
    simp only [find_text, List.any_eq_true]
    constructor
    · rintro ⟨e, he, hpred⟩
      cases e with
      | ok s =>
          refine ⟨s, he, ?_⟩
          simpa using hpred
      | error u => simp at hpred
    · rintro ⟨s, hs, hsub⟩
      exact ⟨.ok s, hs, by simpa using hsub⟩

/-- Witness for C8: no window gives `false`; the demo window matches the
search text `world` case-insensitively despite one unreadable element. -/
theorem find_text_c8_witness :
    find_text none "WSL" = false ∧ find_text demoWindow "world" = true := by
  constructor
  · exact (find_text_c8 none "WSL").1 rfl
  · refine ((find_text_c8 demoWindow "world").2
      [Except.error (), Except.ok "Hello World"] rfl).mpr ?_
    refine ⟨"Hello World", by simp, ?_⟩
    decide

end VSC
